import Mathlib

/-!
Shallow embedding of `src/src-tauri/src/lib.rs` (the native backend of the
dictionary application): the Tauri command `ensure_dictionary_db` and the
two declared SQL migrations.  External effects (app-data-dir resolution,
the bundled-asset resolver, the executable directory, the filesystem, file
creation and the flate2 gzip decoder driven by `std::io::copy`) are modelled
as an explicit read-only environment `Env` plus an explicit filesystem state
`Fs` threaded through the function.
-/

namespace Verteilte

/-- State of one filesystem path, as observed by the Rust code: `absent`
means `Path::exists()` is false; `readable c` means the path exists and
`std::fs::read` yields the bytes `c`; `unreadable e` means the path exists
but `std::fs::read` fails with error message `e`. -/
inductive FsEntry where
  | absent
  | readable (content : List Nat)
  | unreadable (err : String)
deriving DecidableEq

/-- Rust `Path::exists()` on a modelled entry. -/
def FsEntry.isPresent : FsEntry → Bool
  | .absent => false
  | _ => true

/-- The filesystem: a map from path strings to entries. -/
def Fs : Type := String → FsEntry

/-- Overwrite the entry at one path (models creating/writing a file). -/
def setFile (fs : Fs) (p : String) (e : FsEntry) : Fs :=
  fun q => if q = p then e else fs q

/-- Read-only environment of one `ensure_dictionary_db` invocation.
`appDataDir` models `app.path().app_data_dir()` (`.error e` is the failure
message); `asset` models `app.asset_resolver().get`; `exeDir` models
`std::env::current_exe().ok().and_then(parent)`; `createRes` models the
outcome of `File::create(&db_path)` (`some e` = failure with message `e`);
`gunzip b = (written, derr)` models `std::io::copy(GzDecoder::new(b), file)`:
`written` are the bytes written to the file before the copy finished, and
`derr = none` on success (then `written` is the full decompressed stream)
or `some e` when the stream fails after a partial write. -/
structure Env where
  appDataDir : Except String String
  asset : String → Option (List Nat)
  exeDir : Option String
  createRes : Option String
  gunzip : List Nat → List Nat × Option String

/-- Result struct `DictionaryInfo` of the Rust command.  The Rust field
`exists` is a Lean keyword and is rendered `existsFlag`. -/
structure DictionaryInfo where
  version : String
  path : String
  existsFlag : Bool
  logs : List String
deriving DecidableEq

/-- Rust `{:?}` `Debug` rendering of a path (quotes around the string). -/
def debugQuote (p : String) : String := "\"" ++ p ++ "\""

/-- Log line `[RUST] Checking for dictionary at: {:?}`. -/
def checkingLine (p : String) : String :=
  "[RUST] Checking for dictionary at: " ++ debugQuote p

/-- Log line emitted on the fast path when the DB file already exists. -/
def cachedLine : String :=
  "[RUST] Dictionary DB already exists, using cached version"

/-- Final log line of every successful invocation. -/
def readyLine : String := "[RUST] ✓ Dictionary ready"

/-- Log line announcing the search for a compressed source. -/
def notFoundStartLine : String :=
  "[RUST] Dictionary DB not found, decompressing from assets..."

/-- Log line for probing one bundled-asset identifier. -/
def tryingAssetLine (p : String) : String := "[RUST] Trying asset path: " ++ p

/-- Log line for a bundled-asset hit. -/
def foundAssetLine (p : String) : String :=
  "[RUST] ✓ Found via asset resolver: " ++ p

/-- Log line for a bundled-asset miss. -/
def missAssetLine (p : String) : String := "[RUST] ✗ Not found: " ++ p

/-- Log line announcing the executable-relative filesystem fallback. -/
def fsStageLine : String :=
  "[RUST] Asset resolver failed, trying filesystem (dev mode)..."

/-- Log line for probing one executable-relative path. -/
def tryingFsLine (p : String) : String :=
  "[RUST] Trying filesystem: " ++ debugQuote p

/-- Log line for a filesystem-candidate hit. -/
def foundFsLine (p : String) : String :=
  "[RUST] ✓ Found via filesystem: " ++ debugQuote p

/-- Log line for a filesystem candidate that does not exist. -/
def missFsLine (p : String) : String :=
  "[RUST] ✗ Not found: " ++ debugQuote p

/-- Log line for a filesystem candidate that exists but cannot be read. -/
def readErrLine (e : String) : String := "[RUST] Error reading file: " ++ e

/-- Log line recorded when no candidate source was found anywhere. -/
def noSourceLine : String :=
  "[RUST ERROR] dictionary.db.gz not found in any location"

/-- Log line `[RUST] Loaded {n} bytes ({n/1_000_000} MB)`. -/
def loadedLine (n : Nat) : String :=
  "[RUST] Loaded " ++ toString n ++ " bytes (" ++ toString (n / 1000000) ++ " MB)"

/-- Log line announcing decompression. -/
def decompressingLine : String := "[RUST] Decompressing..."

/-- Log line `[RUST] Successfully decompressed {n} bytes ({n/1_000_000} MB)`. -/
def decompressedLine (n : Nat) : String :=
  "[RUST] Successfully decompressed " ++ toString n ++ " bytes (" ++
    toString (n / 1000000) ++ " MB)"

/-- Log line `[RUST] Dictionary DB saved to: {:?}`. -/
def savedLine (p : String) : String :=
  "[RUST] Dictionary DB saved to: " ++ debugQuote p

/-- JSON escape of one character, as `serde_json` renders the log strings
(the log lines contain no control characters, so escaping quote and
backslash is exhaustive for the traces this program produces). -/
def jsonEscapeChar (c : Char) : String :=
  if c = '"' then "\\\"" else if c = '\\' then "\\\\" else String.singleton c

/-- JSON escape of a string body. -/
def jsonEscape (s : String) : String :=
  String.join (s.data.map jsonEscapeChar)

/-- JSON rendering of one string. -/
def jsonString (s : String) : String := "\"" ++ jsonEscape s ++ "\""

/-- JSON rendering of a `Vec<String>`, as `serde_json::to_string(&logs)`. -/
def jsonStringList (l : List String) : String :=
  "[" ++ String.intercalate "," (l.map jsonString) ++ "]"

/-- The fixed list `asset_paths` of bundled-asset identifiers, in source
order. -/
def asset_paths : List String :=
  ["dictionary.db.gz", "_up_/public/dictionary.db.gz", "public/dictionary.db.gz"]

/-- The list `fs_paths` of executable-relative candidate paths, in source
order (`base_dir.join(..)` rendered as string concatenation). -/
def fs_candidate_paths (base : String) : List String :=
  [base ++ "/../public/dictionary.db.gz",
   base ++ "/../../public/dictionary.db.gz",
   base ++ "/../../../public/dictionary.db.gz"]

/-- The first `for path in &asset_paths` loop: probe each bundled-asset
identifier in order, logging each probe, stopping (`break`) at the first
identifier the asset resolver resolves. -/
def tryAssets (asset : String → Option (List Nat)) :
    List String → List String → List String × Option (List Nat)
  | [], logs => (logs, none)
  | p :: ps, logs =>
    match asset p with
    | some a => (logs ++ [tryingAssetLine p, foundAssetLine p], some a)
    | none => tryAssets asset ps (logs ++ [tryingAssetLine p, missAssetLine p])

/-- The second `for fs_path in fs_paths` loop: probe each executable-relative
path in order; a nonexistent path and a failed read are both logged and the
loop continues; the first successful read stops (`break`) the loop. -/
def tryFsPaths (fs : Fs) :
    List String → List String → List String × Option (List Nat)
  | [], logs => (logs, none)
  | p :: ps, logs =>
    match fs p with
    | .readable b => (logs ++ [tryingFsLine p, foundFsLine p], some b)
    | .unreadable e => tryFsPaths fs ps (logs ++ [tryingFsLine p, readErrLine e])
    | .absent => tryFsPaths fs ps (logs ++ [tryingFsLine p, missFsLine p])

/-- The whole candidate search: the bundled-asset loop first; only when it
finds nothing, the `[RUST] Asset resolver failed...` line is logged and the
executable-relative loop runs (skipped entirely when the executable
directory cannot be determined). -/
def findCompressed (env : Env) (fs : Fs) (logs : List String) :
    List String × Option (List Nat) :=
  match tryAssets env.asset asset_paths logs with
  | (logs1, some b) => (logs1, some b)
  | (logs1, none) =>
    let logs2 := logs1 ++ [fsStageLine]
    match env.exeDir with
    | none => (logs2, none)
    | some base => tryFsPaths fs (fs_candidate_paths base) logs2

/-- The two log lines already accumulated when the candidate search starts. -/
def searchStartLogs (p : String) : List String :=
  [checkingLine p, notFoundStartLine]

/-- Trace of a fast-path (file already present) invocation. -/
def fastLogs (p : String) : List String :=
  [checkingLine p, cachedLine, readyLine]

/-- Trace of a successful decompression: the search trace `L` followed by
the load, decompression-start, decompression-success, saved and ready
lines (`n` = compressed size, `m` = bytes written). -/
def successLogs (p : String) (L : List String) (n m : Nat) : List String :=
  L ++ [loadedLine n, decompressingLine, decompressedLine m, savedLine p, readyLine]

/-- Decompression step of `ensure_dictionary_db`, entered with the candidate
bytes in hand: log the size, create the destination file (truncating to
empty on success, propagating a plain error message on failure), run the
gzip copy (the bytes written so far stay on disk in either outcome), and
on success return the `DictionaryInfo`.  Error branches return the plain
`format!` message; the `logs` vector is dropped there, exactly as in the
Rust code where the trace only reaches stdout, not the caller. -/
def materializeFrom (env : Env) (fs : Fs) (p : String) (L : List String)
    (bytes : List Nat) : Except String DictionaryInfo × Fs :=
  match env.createRes with
  | some e => (.error ("Failed to create DB file: " ++ e), fs)
  | none =>
    let fs1 := setFile fs p (FsEntry.readable [])
    match env.gunzip bytes with
    | (written, some e) =>
      (.error ("Failed to decompress DB: " ++ e),
       setFile fs1 p (FsEntry.readable written))
    | (written, none) =>
      (.ok ⟨"20241115", p, true, successLogs p L bytes.length written.length⟩,
       setFile fs1 p (FsEntry.readable written))

/-- The Tauri command `ensure_dictionary_db`.  Resolve the app data
directory (propagating its failure as a plain message), check whether
`dictionary.db` already exists there (fast path), otherwise search for a
compressed candidate; when none is found the command fails with
`"LOGS:" ++ serde_json::to_string(&logs)`, otherwise it decompresses the
candidate to the destination.  Every `Ok` result carries the constant
version `"20241115"`, the destination path, `exists: true` and the full
trace. -/
def ensure_dictionary_db (env : Env) (fs : Fs) :
    Except String DictionaryInfo × Fs :=
  match env.appDataDir with
  | .error e => (.error ("Failed to get app data dir: " ++ e), fs)
  | .ok dir =>
    let db_path := dir ++ "/dictionary.db"
    if (fs db_path).isPresent then
      (.ok ⟨"20241115", db_path, true, fastLogs db_path⟩, fs)
    else
      match findCompressed env fs (searchStartLogs db_path) with
      | (L, none) =>
        (.error ("LOGS:" ++ jsonStringList (L ++ [noSourceLine])), fs)
      | (L, some bytes) => materializeFrom env fs db_path L bytes

/-- Decidable prefix test on character lists (used by `strContains`). -/
def listPre : List Char → List Char → Bool
  | [], _ => true
  | _ :: _, [] => false
  | a :: ps, b :: s => a = b && listPre ps s

/-- Decidable contiguous-substring test on character lists. -/
def hasInfix (pat : List Char) : List Char → Bool
  | [] => pat.isEmpty
  | c :: t => listPre pat (c :: t) || hasInfix pat t

/-- `strContains s pat` decides whether `pat` occurs contiguously in `s`. -/
def strContains (s pat : String) : Bool := hasInfix pat.data s.data

/-- Serialized dictionary entry struct (declared, never constructed by the
native code itself). -/
structure DictionaryEntry where
  word : String
  pronunciation : Option String
  gender : Option String
  meanings : List String
  notes : List String
  synonyms : List String
  see_also : List String

/-- `tauri_plugin_sql::MigrationKind` (only `Up` occurs in this code). -/
inductive MigrationKind where
  | up
  | down
deriving DecidableEq

/-- `tauri_plugin_sql::Migration`. -/
structure Migration where
  version : Int
  description : String
  sql : String
  kind : MigrationKind

/-- SQL of migration 1, verbatim from the source (Rust multiline string,
indentation included). -/
def create_words_table_sql : String :=
  "CREATE TABLE IF NOT EXISTS words (\n                id INTEGER PRIMARY KEY AUTOINCREMENT,\n                original TEXT NOT NULL,\n                translation TEXT NOT NULL,\n                article TEXT NOT NULL DEFAULT '',\n                created_at DATETIME DEFAULT CURRENT_TIMESTAMP\n            )"

/-- SQL of migration 2, verbatim from the source. -/
def add_spaced_repetition_fields_sql : String :=
  "ALTER TABLE words ADD COLUMN score INTEGER NOT NULL DEFAULT 0;\n                  ALTER TABLE words ADD COLUMN createdAt INTEGER NOT NULL DEFAULT 0;\n                  ALTER TABLE words ADD COLUMN lastReviewedAt INTEGER NOT NULL DEFAULT 0;\n                  ALTER TABLE words ADD COLUMN nextReviewAt INTEGER NOT NULL DEFAULT 0;"

/-- The `migrations` vector registered in `run` for `sqlite:words.db`. -/
def migrations : List Migration :=
  [⟨1, "create_words_table", create_words_table_sql, MigrationKind.up⟩,
   ⟨2, "add_spaced_repetition_fields", add_spaced_repetition_fields_sql,
    MigrationKind.up⟩]

/-! Helper lemmas about the embedding. -/

theorem setFile_same (fs : Fs) (p : String) (e : FsEntry) :
    setFile fs p e p = e := by
  simp [setFile]

theorem setFile_other (fs : Fs) (p q : String) (e : FsEntry) (h : q ≠ p) :
    setFile fs p e q = fs q := by
  simp [setFile, h]

theorem tryAssets_snd_none (asset : String → Option (List Nat))
    (ps : List String) (logs : List String)
    (h : ∀ p ∈ ps, asset p = none) :
    (tryAssets asset ps logs).snd = none := by
  induction ps generalizing logs with
  | nil => rfl
  | cons p ps ih =>
    have hp : asset p = none := h p (List.mem_cons_self p ps)
    rw [tryAssets, hp]
    exact ih _ (fun q hq => h q (List.mem_cons_of_mem p hq))

theorem tryAssets_fst_append (asset : String → Option (List Nat))
    (ps : List String) (logs : List String) :
    ∃ t, (tryAssets asset ps logs).fst = logs ++ t := by
  induction ps generalizing logs with
  | nil => exact ⟨[], by simp [tryAssets]⟩
  | cons p ps ih =>
    rw [tryAssets]
    cases h : asset p with
    | some a => exact ⟨[tryingAssetLine p, foundAssetLine p], rfl⟩
    | none =>
      obtain ⟨t, ht⟩ := ih (logs ++ [tryingAssetLine p, missAssetLine p])
      exact ⟨[tryingAssetLine p, missAssetLine p] ++ t, by rw [ht, List.append_assoc]⟩

theorem tryFsPaths_snd_none_iff (fs : Fs) (ps : List String)
    (logs : List String) :
    (tryFsPaths fs ps logs).snd = none ↔ ∀ p ∈ ps, ∀ b, fs p ≠ FsEntry.readable b := by
  induction ps generalizing logs with
  | nil => simp [tryFsPaths]
  | cons p ps ih =>
    rw [tryFsPaths]
    cases h : fs p with
    | readable b =>
      simp only []
      constructor
      · intro hc; cases hc
      · intro hall
        exact absurd h (hall p (List.mem_cons_self p ps) b)
    | unreadable e =>
      rw [ih]
      constructor
      · intro hall q hq b
        rcases List.mem_cons.mp hq with rfl | hq'
        · rw [h]; intro hc; cases hc
        · exact hall q hq' b
      · intro hall q hq b
        exact hall q (List.mem_cons_of_mem p hq) b
    | absent =>
      rw [ih]
      constructor
      · intro hall q hq b
        rcases List.mem_cons.mp hq with rfl | hq'
        · rw [h]; intro hc; cases hc
        · exact hall q hq' b
      · intro hall q hq b
        exact hall q (List.mem_cons_of_mem p hq) b

theorem tryFsPaths_fst_append (fs : Fs) (ps : List String)
    (logs : List String) :
    ∃ t, (tryFsPaths fs ps logs).fst = logs ++ t := by
  induction ps generalizing logs with
  | nil => exact ⟨[], by simp [tryFsPaths]⟩
  | cons p ps ih =>
    rw [tryFsPaths]
    cases h : fs p with
    | readable b => exact ⟨[tryingFsLine p, foundFsLine p], rfl⟩
    | unreadable e =>
      obtain ⟨t, ht⟩ := ih (logs ++ [tryingFsLine p, readErrLine e])
      exact ⟨[tryingFsLine p, readErrLine e] ++ t, by rw [ht, List.append_assoc]⟩
    | absent =>
      obtain ⟨t, ht⟩ := ih (logs ++ [tryingFsLine p, missFsLine p])
      exact ⟨[tryingFsLine p, missFsLine p] ++ t, by rw [ht, List.append_assoc]⟩

theorem findCompressed_fst_append (env : Env) (fs : Fs) (logs : List String) :
    ∃ t, (findCompressed env fs logs).fst = logs ++ t := by
  rw [findCompressed]
  obtain ⟨t, ht⟩ := tryAssets_fst_append env.asset asset_paths logs
  rcases hta : tryAssets env.asset asset_paths logs with ⟨logs1, ob⟩
  rw [hta] at ht
  replace ht : logs1 = logs ++ t := ht
  cases ob with
  | some b => exact ⟨t, ht⟩
  | none =>
    simp only []
    cases hx : env.exeDir with
    | none => exact ⟨t ++ [fsStageLine], by simp [ht, List.append_assoc]⟩
    | some base =>
      obtain ⟨u, hu⟩ := tryFsPaths_fst_append fs (fs_candidate_paths base)
        (logs1 ++ [fsStageLine])
      exact ⟨t ++ [fsStageLine] ++ u, by rw [hu, ht]; simp [List.append_assoc]⟩

theorem findCompressed_snd_none (env : Env) (fs : Fs) (logs : List String)
    (hA : ∀ p, env.asset p = none)
    (hF : ∀ base, env.exeDir = some base →
      ∀ p ∈ fs_candidate_paths base, ∀ b, fs p ≠ FsEntry.readable b) :
    (findCompressed env fs logs).snd = none := by
  rw [findCompressed]
  have h1 : (tryAssets env.asset asset_paths logs).snd = none :=
    tryAssets_snd_none env.asset asset_paths logs (fun p _ => hA p)
  rcases hta : tryAssets env.asset asset_paths logs with ⟨logs1, ob⟩
  rw [hta] at h1
  cases ob with
  | some b => cases h1
  | none =>
    simp only []
    cases hx : env.exeDir with
    | none => rfl
    | some base =>
      exact (tryFsPaths_snd_none_iff fs (fs_candidate_paths base)
        (logs1 ++ [fsStageLine])).mpr (hF base hx)

theorem ensure_dir_fail_eq (env : Env) (fs : Fs) (e : String)
    (hA : env.appDataDir = .error e) :
    ensure_dictionary_db env fs =
      (.error ("Failed to get app data dir: " ++ e), fs) := by
  rw [ensure_dictionary_db, hA]

theorem ensure_fast_eq (env : Env) (fs : Fs) (dir : String)
    (hA : env.appDataDir = .ok dir)
    (hp : (fs (dir ++ "/dictionary.db")).isPresent = true) :
    ensure_dictionary_db env fs =
      (.ok ⟨"20241115", dir ++ "/dictionary.db", true,
            fastLogs (dir ++ "/dictionary.db")⟩, fs) := by
  rw [ensure_dictionary_db, hA]
  simp only [hp, if_true]

theorem ensure_no_source_eq (env : Env) (fs : Fs) (dir : String)
    (L : List String)
    (hA : env.appDataDir = .ok dir)
    (hp : (fs (dir ++ "/dictionary.db")).isPresent = false)
    (hf : findCompressed env fs (searchStartLogs (dir ++ "/dictionary.db")) =
      (L, none)) :
    ensure_dictionary_db env fs =
      (.error ("LOGS:" ++ jsonStringList (L ++ [noSourceLine])), fs) := by
  rw [ensure_dictionary_db, hA]
  simp only [hp, Bool.false_eq_true, if_false, hf]

theorem ensure_found_eq (env : Env) (fs : Fs) (dir : String)
    (L : List String) (b : List Nat)
    (hA : env.appDataDir = .ok dir)
    (hp : (fs (dir ++ "/dictionary.db")).isPresent = false)
    (hf : findCompressed env fs (searchStartLogs (dir ++ "/dictionary.db")) =
      (L, some b)) :
    ensure_dictionary_db env fs =
      materializeFrom env fs (dir ++ "/dictionary.db") L b := by
  rw [ensure_dictionary_db, hA]
  simp only [hp, Bool.false_eq_true, if_false, hf]

theorem materializeFrom_create_fail (env : Env) (fs : Fs) (p : String)
    (L : List String) (b : List Nat) (e : String)
    (hc : env.createRes = some e) :
    materializeFrom env fs p L b =
      (.error ("Failed to create DB file: " ++ e), fs) := by
  rw [materializeFrom, hc]

theorem materializeFrom_gunzip_fail (env : Env) (fs : Fs) (p : String)
    (L : List String) (b : List Nat) (w : List Nat) (e : String)
    (hc : env.createRes = none)
    (hg : env.gunzip b = (w, some e)) :
    materializeFrom env fs p L b =
      (.error ("Failed to decompress DB: " ++ e),
       setFile (setFile fs p (FsEntry.readable [])) p (FsEntry.readable w)) := by
  rw [materializeFrom, hc]
  simp only [hg]

theorem materializeFrom_ok (env : Env) (fs : Fs) (p : String)
    (L : List String) (b : List Nat) (out : List Nat)
    (hc : env.createRes = none)
    (hg : env.gunzip b = (out, none)) :
    materializeFrom env fs p L b =
      (.ok ⟨"20241115", p, true, successLogs p L b.length out.length⟩,
       setFile (setFile fs p (FsEntry.readable [])) p (FsEntry.readable out)) := by
  rw [materializeFrom, hc]
  simp only [hg]

theorem ensure_ok_inv (env : Env) (fs : Fs) (info : DictionaryInfo) (fs' : Fs)
    (h : ensure_dictionary_db env fs = (.ok info, fs')) :
    ∃ dir, env.appDataDir = .ok dir ∧ info.path = dir ++ "/dictionary.db" ∧
      info.version = "20241115" ∧ info.existsFlag = true ∧
      (fs' info.path).isPresent = true ∧
      info.logs.head? = some (checkingLine info.path) ∧
      info.logs.getLast? = some readyLine := by
  rcases hA : env.appDataDir with e | dir
  · rw [ensure_dir_fail_eq env fs e hA] at h
    simp at h
  · by_cases hp : (fs (dir ++ "/dictionary.db")).isPresent = true
    · rw [ensure_fast_eq env fs dir hA hp] at h
      rw [Prod.mk.injEq] at h
      obtain ⟨h1, h2⟩ := h
      injection h1 with h1
      subst h2
      subst h1
      exact ⟨dir, rfl, rfl, rfl, rfl, hp, rfl, rfl⟩
    · rw [Bool.not_eq_true] at hp
      rcases hf : findCompressed env fs
        (searchStartLogs (dir ++ "/dictionary.db")) with ⟨L, ob⟩
      cases ob with
      | none =>
        rw [ensure_no_source_eq env fs dir L hA hp hf] at h
        simp at h
      | some b =>
        rw [ensure_found_eq env fs dir L b hA hp hf] at h
        rcases hc : env.createRes with _ | e
        · rcases hg : env.gunzip b with ⟨w, derr⟩
          cases derr with
          | some e =>
            rw [materializeFrom_gunzip_fail env fs _ L b w e hc hg] at h
            simp at h
          | none =>
            rw [materializeFrom_ok env fs _ L b w hc hg] at h
            rw [Prod.mk.injEq] at h
            obtain ⟨h1, h2⟩ := h
            injection h1 with h1
            subst h2
            subst h1
            obtain ⟨t, ht⟩ := findCompressed_fst_append env fs
              (searchStartLogs (dir ++ "/dictionary.db"))
            rw [hf] at ht
            replace ht : L = searchStartLogs (dir ++ "/dictionary.db") ++ t := ht
            refine ⟨dir, rfl, rfl, rfl, rfl, ?_, ?_, ?_⟩
            · rw [setFile_same]; rfl
            · simp [successLogs, ht, searchStartLogs]
            · rw [successLogs, List.getLast?_append_cons]; rfl
        · rw [materializeFrom_create_fail env fs _ L b e hc] at h
          simp at h

/-! Concrete environments used by counterexamples and witnesses. -/

/-- Environment with a working data directory but no candidate source
anywhere: the asset resolver resolves nothing and the executable directory
cannot be determined. -/
def envC1 : Env :=
  { appDataDir := .ok "/data", asset := fun _ => none, exeDir := none,
    createRes := none, gunzip := fun b => (b, none) }

/-- Completely empty filesystem. -/
def fsC1 : Fs := fun _ => FsEntry.absent

/-- C1 counterexample input: the claim asserts that with no candidate source
the command returns `Ok` with `exists = false`; on the code it returns
`Err` instead.  At `envC1`/`fsC1` the result is not an `Ok` value. -/
theorem no_source_claim_cex :
    (ensure_dictionary_db envC1 fsC1).fst.isOk = false ∧
    (ensure_dictionary_db envC1 fsC1).snd = fsC1 := by
  exact ⟨rfl, rfl⟩

/-- C1 (amended): when no bundled asset resolves and no executable-relative
candidate is a readable file, `ensure_dictionary_db` returns an error whose
message is `"LOGS:"` followed by the JSON-serialized trace, and creates no
destination file (the filesystem is returned unchanged). -/
theorem no_source_errors_with_trace (env : Env) (fs : Fs) (dir : String)
    (hA : env.appDataDir = .ok dir)
    (hp : (fs (dir ++ "/dictionary.db")).isPresent = false)
    (hasset : ∀ p, env.asset p = none)
    (hfs : ∀ base, env.exeDir = some base →
      ∀ p ∈ fs_candidate_paths base, fs p = FsEntry.absent) :
    ensure_dictionary_db env fs =
      (.error ("LOGS:" ++ jsonStringList
        ((findCompressed env fs (searchStartLogs (dir ++ "/dictionary.db"))).fst
          ++ [noSourceLine])), fs) := by
  have hn : (findCompressed env fs
      (searchStartLogs (dir ++ "/dictionary.db"))).snd = none := by
    refine findCompressed_snd_none env fs _ hasset ?_
    intro base hb p hpmem b
    rw [hfs base hb p hpmem]
    intro hc
    cases hc
  rcases hfc : findCompressed env fs
    (searchStartLogs (dir ++ "/dictionary.db")) with ⟨L, ob⟩
  rw [hfc] at hn
  replace hn : ob = none := hn
  subst hn
  rw [ensure_no_source_eq env fs dir L hA hp hfc]

/-- C1 witness: the amended statement evaluated at the concrete
no-candidate environment. -/
theorem no_source_errors_with_trace_witness :
    ensure_dictionary_db envC1 fsC1 =
      (.error ("LOGS:" ++ jsonStringList
        ((findCompressed envC1 fsC1
          (searchStartLogs ("/data" ++ "/dictionary.db"))).fst
          ++ [noSourceLine])), fsC1) :=
  no_source_errors_with_trace envC1 fsC1 "/data" rfl rfl (fun _ => rfl)
    (fun _ hb => nomatch hb)

/-- Environment for the fast path: working data directory, nothing else
needed. -/
def envC2 : Env :=
  { appDataDir := .ok "/data", asset := fun _ => none, exeDir := none,
    createRes := none, gunzip := fun b => (b, none) }

/-- Filesystem in which the decompressed dictionary already exists. -/
def fsC2 : Fs := fun q =>
  if q = "/data/dictionary.db" then FsEntry.readable [1, 2] else FsEntry.absent

/-- C2 counterexample input: the claim asserts the fast path returns exactly
one trace line; on the code the fast-path trace has three lines. -/
theorem fast_path_one_line_cex :
    ((ensure_dictionary_db envC2 fsC2).fst.toOption.map
      (fun i => i.logs.length)) = some 3 ∧
    ¬ ((ensure_dictionary_db envC2 fsC2).fst.toOption.map
      (fun i => i.logs.length)) = some 1 := by
  exact ⟨rfl, by decide⟩

/-- C2 (amended): when the target decompressed file already exists,
`ensure_dictionary_db` performs no filesystem writes (the filesystem is
returned unchanged), returns `exists = true`, and its trace is exactly the
three fast-path lines. -/
theorem fast_path_no_writes (env : Env) (fs : Fs) (dir : String)
    (hA : env.appDataDir = .ok dir)
    (hp : (fs (dir ++ "/dictionary.db")).isPresent = true) :
    ensure_dictionary_db env fs =
      (.ok ⟨"20241115", dir ++ "/dictionary.db", true,
            fastLogs (dir ++ "/dictionary.db")⟩, fs) ∧
    (fastLogs (dir ++ "/dictionary.db")).length = 3 := by
  exact ⟨ensure_fast_eq env fs dir hA hp, rfl⟩

/-- C2 witness: the amended statement at the concrete present-file input. -/
theorem fast_path_no_writes_witness :
    (ensure_dictionary_db envC2 fsC2 =
      (.ok ⟨"20241115", "/data" ++ "/dictionary.db", true,
            fastLogs ("/data" ++ "/dictionary.db")⟩, fsC2)) ∧
    (fastLogs ("/data" ++ "/dictionary.db")).length = 3 :=
  fast_path_no_writes envC2 fsC2 "/data" rfl rfl

/-- C3: the candidate search is deterministic and short-circuits.  A
bundled-asset identifier that resolves stops the asset loop at once, with
the tail never consulted; a miss logs and moves to the next identifier in
listed order; a readable executable-relative path stops the filesystem
loop at once; the whole search returns the asset result whenever the asset
loop finds bytes (the filesystem is never probed); and the
executable-relative stage runs exactly when the asset loop found nothing. -/
theorem search_first_match_wins :
    (∀ (a : String → Option (List Nat)) p ps logs b, a p = some b →
      tryAssets a (p :: ps) logs =
        (logs ++ [tryingAssetLine p, foundAssetLine p], some b)) ∧
    (∀ (a : String → Option (List Nat)) p ps logs, a p = none →
      tryAssets a (p :: ps) logs =
        tryAssets a ps (logs ++ [tryingAssetLine p, missAssetLine p])) ∧
    (∀ (fsm : Fs) p ps logs b, fsm p = FsEntry.readable b →
      tryFsPaths fsm (p :: ps) logs =
        (logs ++ [tryingFsLine p, foundFsLine p], some b)) ∧
    (∀ (env : Env) (fsm : Fs) logs L b,
      tryAssets env.asset asset_paths logs = (L, some b) →
      findCompressed env fsm logs = (L, some b)) ∧
    (∀ (env : Env) (fsm : Fs) logs L,
      tryAssets env.asset asset_paths logs = (L, none) →
      findCompressed env fsm logs =
        match env.exeDir with
        | none => (L ++ [fsStageLine], none)
        | some base =>
          tryFsPaths fsm (fs_candidate_paths base) (L ++ [fsStageLine])) := by
  refine ⟨?_, ?_, ?_, ?_, ?_⟩
  · intro a p ps logs b h
    rw [tryAssets, h]
  · intro a p ps logs h
    rw [tryAssets, h]
  · intro fsm p ps logs b h
    rw [tryFsPaths, h]
  · intro env fsm logs L b h
    rw [findCompressed, h]
  · intro env fsm logs L h
    rw [findCompressed, h]

/-- Asset resolver for the C3 witness: only the first identifier resolves. -/
def assetC3 : String → Option (List Nat) :=
  fun p => if p = "dictionary.db.gz" then some [1] else none

/-- Environment for the C3 witness built over `assetC3`. -/
def envC3 : Env :=
  { appDataDir := .ok "/data", asset := assetC3, exeDir := none,
    createRes := none, gunzip := fun b => (b, none) }

/-- Environment for the C3 witness in which no asset resolves. -/
def envC3n : Env :=
  { appDataDir := .ok "/data", asset := fun _ => none, exeDir := none,
    createRes := none, gunzip := fun b => (b, none) }

/-- Filesystem for the C3 witness: one readable candidate. -/
def fsC3 : Fs := fun q =>
  if q = "/base/../public/dictionary.db.gz" then FsEntry.readable [3]
  else FsEntry.absent

/-- C3 witness: each conjunct of the search theorem evaluated at a concrete
input. -/
theorem search_first_match_wins_witness :
    (tryAssets assetC3 ["dictionary.db.gz", "ignored.gz"] [] =
      ([tryingAssetLine "dictionary.db.gz", foundAssetLine "dictionary.db.gz"],
       some [1])) ∧
    (tryAssets assetC3 ["missing.gz", "dictionary.db.gz"] [] =
      tryAssets assetC3 ["dictionary.db.gz"]
        ([] ++ [tryingAssetLine "missing.gz", missAssetLine "missing.gz"])) ∧
    (tryFsPaths fsC3 ["/base/../public/dictionary.db.gz", "other"] [] =
      ([tryingFsLine "/base/../public/dictionary.db.gz",
        foundFsLine "/base/../public/dictionary.db.gz"], some [3])) ∧
    (findCompressed envC3 fsC3 [] =
      ([tryingAssetLine "dictionary.db.gz", foundAssetLine "dictionary.db.gz"],
       some [1])) ∧
    (findCompressed envC3n fsC3 [] =
      ([tryingAssetLine "dictionary.db.gz", missAssetLine "dictionary.db.gz",
        tryingAssetLine "_up_/public/dictionary.db.gz",
        missAssetLine "_up_/public/dictionary.db.gz",
        tryingAssetLine "public/dictionary.db.gz",
        missAssetLine "public/dictionary.db.gz"] ++ [fsStageLine], none)) := by
  exact ⟨search_first_match_wins.1 assetC3 "dictionary.db.gz" ["ignored.gz"]
      [] [1] rfl,
    search_first_match_wins.2.1 assetC3 "missing.gz" ["dictionary.db.gz"]
      [] rfl,
    search_first_match_wins.2.2.1 fsC3 "/base/../public/dictionary.db.gz"
      ["other"] [] [3] rfl,
    search_first_match_wins.2.2.2.1 envC3 fsC3 []
      [tryingAssetLine "dictionary.db.gz", foundAssetLine "dictionary.db.gz"]
      [1] rfl,
    search_first_match_wins.2.2.2.2 envC3n fsC3 []
      [tryingAssetLine "dictionary.db.gz", missAssetLine "dictionary.db.gz",
       tryingAssetLine "_up_/public/dictionary.db.gz",
       missAssetLine "_up_/public/dictionary.db.gz",
       tryingAssetLine "public/dictionary.db.gz",
       missAssetLine "public/dictionary.db.gz"] rfl⟩

/-- Environment for C4: the first bundled asset resolves, but creating the
destination file fails. -/
def envC4 : Env :=
  { appDataDir := .ok "/data",
    asset := fun p => if p = "dictionary.db.gz" then some [1, 2] else none,
    exeDir := none, createRes := some "boom", gunzip := fun b => (b, none) }

/-- Empty filesystem for C4. -/
def fsC4 : Fs := fun _ => FsEntry.absent

/-- C4 counterexample input: the claim asserts every failure embeds the
accumulated trace in the error value; when `File::create` fails the code
returns the plain message `Failed to create DB file: ...`, which does not
contain the first trace line. -/
theorem create_fail_error_lacks_trace :
    (ensure_dictionary_db envC4 fsC4).fst =
      .error ("Failed to create DB file: " ++ "boom") ∧
    strContains ("Failed to create DB file: " ++ "boom")
      (checkingLine ("/data" ++ "/dictionary.db")) = false := by
  exact ⟨rfl, by decide⟩

/-- C4 (amended): the trace reaches the caller only on success (in the
`logs` field, running from the checking line to the ready line) and in the
no-candidate failure (error `"LOGS:" ++` serialized trace); the
data-directory, file-creation and decompression failures return plain
descriptive messages without the trace. -/
theorem trace_reporting_policy :
    (∀ (env : Env) (fs : Fs) dir L,
      env.appDataDir = .ok dir →
      (fs (dir ++ "/dictionary.db")).isPresent = false →
      findCompressed env fs (searchStartLogs (dir ++ "/dictionary.db")) =
        (L, none) →
      (ensure_dictionary_db env fs).fst =
        .error ("LOGS:" ++ jsonStringList (L ++ [noSourceLine]))) ∧
    (∀ (env : Env) (fs : Fs) info fs',
      ensure_dictionary_db env fs = (.ok info, fs') →
      info.logs.head? = some (checkingLine info.path) ∧
      info.logs.getLast? = some readyLine) ∧
    (∀ (env : Env) (fs : Fs) e,
      env.appDataDir = .error e →
      (ensure_dictionary_db env fs).fst =
        .error ("Failed to get app data dir: " ++ e)) ∧
    (∀ (env : Env) (fs : Fs) dir L b e,
      env.appDataDir = .ok dir →
      (fs (dir ++ "/dictionary.db")).isPresent = false →
      findCompressed env fs (searchStartLogs (dir ++ "/dictionary.db")) =
        (L, some b) →
      env.createRes = some e →
      (ensure_dictionary_db env fs).fst =
        .error ("Failed to create DB file: " ++ e)) ∧
    (∀ (env : Env) (fs : Fs) dir L b w e,
      env.appDataDir = .ok dir →
      (fs (dir ++ "/dictionary.db")).isPresent = false →
      findCompressed env fs (searchStartLogs (dir ++ "/dictionary.db")) =
        (L, some b) →
      env.createRes = none →
      env.gunzip b = (w, some e) →
      (ensure_dictionary_db env fs).fst =
        .error ("Failed to decompress DB: " ++ e)) := by
  refine ⟨?_, ?_, ?_, ?_, ?_⟩
  · intro env fs dir L hA hp hf
    rw [ensure_no_source_eq env fs dir L hA hp hf]
  · intro env fs info fs' h
    obtain ⟨dir, _, _, _, _, _, hh, hl⟩ := ensure_ok_inv env fs info fs' h
    exact ⟨hh, hl⟩
  · intro env fs e hA
    rw [ensure_dir_fail_eq env fs e hA]
  · intro env fs dir L b e hA hp hf hc
    rw [ensure_found_eq env fs dir L b hA hp hf,
      materializeFrom_create_fail env fs _ L b e hc]
  · intro env fs dir L b w e hA hp hf hc hg
    rw [ensure_found_eq env fs dir L b hA hp hf,
      materializeFrom_gunzip_fail env fs _ L b w e hc hg]

/-- Environment for the C4 witness success conjunct (fast path). -/
def envC4ok : Env :=
  { appDataDir := .ok "/d4", asset := fun _ => none, exeDir := none,
    createRes := none, gunzip := fun b => (b, none) }

/-- Filesystem for the C4 witness success conjunct. -/
def fsC4ok : Fs := fun q =>
  if q = "/d4/dictionary.db" then FsEntry.readable [0] else FsEntry.absent

/-- Environment for the C4 witness data-directory-failure conjunct. -/
def envC4e : Env :=
  { appDataDir := .error "nope", asset := fun _ => none, exeDir := none,
    createRes := none, gunzip := fun b => (b, none) }

/-- Environment for the C4 witness decompression-failure conjunct. -/
def envC4g : Env :=
  { appDataDir := .ok "/data",
    asset := fun p => if p = "dictionary.db.gz" then some [1, 2] else none,
    exeDir := none, createRes := none,
    gunzip := fun _ => ([7], some "corrupt") }

/-- Environment for the C4 witness no-candidate conjunct. -/
def envC4n : Env :=
  { appDataDir := .ok "/data", asset := fun _ => none, exeDir := none,
    createRes := none, gunzip := fun b => (b, none) }

/-- Trace accumulated by the failed search of `envC4n` over `fsC4`. -/
def tracC4n : List String :=
  searchStartLogs ("/data" ++ "/dictionary.db") ++
    [tryingAssetLine "dictionary.db.gz", missAssetLine "dictionary.db.gz",
     tryingAssetLine "_up_/public/dictionary.db.gz",
     missAssetLine "_up_/public/dictionary.db.gz",
     tryingAssetLine "public/dictionary.db.gz",
     missAssetLine "public/dictionary.db.gz"] ++ [fsStageLine]

/-- Trace accumulated by the successful search of `envC4`/`envC4g`. -/
def tracC4f : List String :=
  searchStartLogs ("/data" ++ "/dictionary.db") ++
    [tryingAssetLine "dictionary.db.gz", foundAssetLine "dictionary.db.gz"]

/-- C4 witness: each conjunct of the trace-policy theorem evaluated at a
concrete input. -/
theorem trace_reporting_policy_witness :
    ((ensure_dictionary_db envC4n fsC4).fst =
      .error ("LOGS:" ++ jsonStringList (tracC4n ++ [noSourceLine]))) ∧
    ((⟨"20241115", "/d4" ++ "/dictionary.db", true,
        fastLogs ("/d4" ++ "/dictionary.db")⟩ :
        DictionaryInfo).logs.head? =
      some (checkingLine (DictionaryInfo.path
        ⟨"20241115", "/d4" ++ "/dictionary.db", true,
         fastLogs ("/d4" ++ "/dictionary.db")⟩)) ∧
     (⟨"20241115", "/d4" ++ "/dictionary.db", true,
        fastLogs ("/d4" ++ "/dictionary.db")⟩ :
        DictionaryInfo).logs.getLast? = some readyLine) ∧
    ((ensure_dictionary_db envC4e fsC4).fst =
      .error ("Failed to get app data dir: " ++ "nope")) ∧
    ((ensure_dictionary_db envC4 fsC4).fst =
      .error ("Failed to create DB file: " ++ "boom")) ∧
    ((ensure_dictionary_db envC4g fsC4).fst =
      .error ("Failed to decompress DB: " ++ "corrupt")) := by
  exact ⟨trace_reporting_policy.1 envC4n fsC4 "/data" tracC4n rfl rfl rfl,
    trace_reporting_policy.2.1 envC4ok fsC4ok
      ⟨"20241115", "/d4" ++ "/dictionary.db", true,
       fastLogs ("/d4" ++ "/dictionary.db")⟩ fsC4ok rfl,
    trace_reporting_policy.2.2.1 envC4e fsC4 "nope" rfl,
    trace_reporting_policy.2.2.2.1 envC4 fsC4 "/data" tracC4f [1, 2] "boom"
      rfl rfl rfl rfl,
    trace_reporting_policy.2.2.2.2 envC4g fsC4 "/data" tracC4f [1, 2] [7]
      "corrupt" rfl rfl rfl rfl rfl⟩

/-- Environment for the C5 counterexample: no candidate source anywhere. -/
def envC5x : Env :=
  { appDataDir := .ok "/data", asset := fun _ => none, exeDir := none,
    createRes := none, gunzip := fun b => (b, none) }

/-- Empty filesystem for the C5 counterexample. -/
def fsC5x : Fs := fun _ => FsEntry.absent

/-- C5 counterexample input: the claim asserts the second of two sequential
calls always takes the fast path (existence check succeeds); when no
candidate source exists the first call materializes nothing, so the second
call fails again instead of taking the (always-`Ok`) fast path. -/
theorem idempotent_claim_cex :
    (ensure_dictionary_db envC5x
      ((ensure_dictionary_db envC5x fsC5x).snd)).fst.isOk = false ∧
    (ensure_dictionary_db envC5x fsC5x).fst.isOk = false := by
  exact ⟨rfl, rfl⟩

/-- C5 (amended): idempotence after success.  Whenever a call succeeds
(fast path or after a
decompression), a second call on the resulting filesystem finds the file
present, takes the fast path (three-line trace, no search, no
decompression) and leaves the filesystem — hence the file content —
unchanged. -/
theorem ensure_idempotent (env : Env) (fs : Fs) (info : DictionaryInfo)
    (fs' : Fs) (h : ensure_dictionary_db env fs = (.ok info, fs')) :
    ensure_dictionary_db env fs' =
      (.ok ⟨"20241115", info.path, true, fastLogs info.path⟩, fs') := by
  obtain ⟨dir, hA, hpath, _, _, hfe, _, _⟩ := ensure_ok_inv env fs info fs' h
  rw [hpath] at hfe ⊢
  exact ensure_fast_eq env fs' dir hA hfe

/-- Environment for the C5 witness: first asset resolves, gzip doubles the
bytes. -/
def envC5 : Env :=
  { appDataDir := .ok "/data",
    asset := fun p => if p = "dictionary.db.gz" then some [5] else none,
    exeDir := none, createRes := none, gunzip := fun b => (b ++ b, none) }

/-- Empty filesystem for the C5 witness. -/
def fsC5 : Fs := fun _ => FsEntry.absent

/-- Filesystem after the first successful C5 call. -/
def fsC5' : Fs :=
  setFile (setFile fsC5 "/data/dictionary.db" (FsEntry.readable []))
    "/data/dictionary.db" (FsEntry.readable [5, 5])

/-- Result of the first successful C5 call. -/
def infoC5 : DictionaryInfo :=
  ⟨"20241115", "/data" ++ "/dictionary.db", true,
   successLogs ("/data" ++ "/dictionary.db")
     (searchStartLogs ("/data" ++ "/dictionary.db") ++
       [tryingAssetLine "dictionary.db.gz", foundAssetLine "dictionary.db.gz"])
     1 2⟩

/-- C5 witness: after the concrete first call materializes the file, the
second call takes the fast path on the unchanged filesystem. -/
theorem ensure_idempotent_witness :
    ensure_dictionary_db envC5 fsC5' =
      (.ok ⟨"20241115", infoC5.path, true, fastLogs infoC5.path⟩, fsC5') :=
  ensure_idempotent envC5 fsC5 infoC5 fsC5' rfl

/-- C6: a found candidate whose gzip stream decompresses without error is
written in full to the destination (the destination entry afterwards holds
exactly the decompressed stream, all other paths are untouched), and the
command reports exactly the decompressed byte count, both in the returned
struct's trace and in the decompressed-count trace line. -/
theorem decompress_writes_full_and_reports_count (env : Env) (fs : Fs)
    (dir : String) (L : List String) (b out : List Nat)
    (hA : env.appDataDir = .ok dir)
    (hp : (fs (dir ++ "/dictionary.db")).isPresent = false)
    (hf : findCompressed env fs (searchStartLogs (dir ++ "/dictionary.db")) =
      (L, some b))
    (hc : env.createRes = none)
    (hg : env.gunzip b = (out, none)) :
    (ensure_dictionary_db env fs).fst =
      .ok ⟨"20241115", dir ++ "/dictionary.db", true,
           successLogs (dir ++ "/dictionary.db") L b.length out.length⟩ ∧
    (ensure_dictionary_db env fs).snd (dir ++ "/dictionary.db") =
      FsEntry.readable out ∧
    (∀ q, q ≠ dir ++ "/dictionary.db" →
      (ensure_dictionary_db env fs).snd q = fs q) ∧
    decompressedLine out.length ∈
      successLogs (dir ++ "/dictionary.db") L b.length out.length := by
  rw [ensure_found_eq env fs dir L b hA hp hf,
    materializeFrom_ok env fs _ L b out hc hg]
  refine ⟨rfl, setFile_same _ _ _, ?_, ?_⟩
  · intro q hq
    dsimp only
    rw [setFile_other _ _ _ _ hq, setFile_other _ _ _ _ hq]
  · simp [successLogs]

/-- Environment for the C6 witness. -/
def envC6 : Env :=
  { appDataDir := .ok "/data",
    asset := fun p => if p = "dictionary.db.gz" then some [5] else none,
    exeDir := none, createRes := none, gunzip := fun b => (b ++ b, none) }

/-- Empty filesystem for the C6 witness. -/
def fsC6 : Fs := fun _ => FsEntry.absent

/-- Search trace of the C6 witness. -/
def tracC6 : List String :=
  searchStartLogs ("/data" ++ "/dictionary.db") ++
    [tryingAssetLine "dictionary.db.gz", foundAssetLine "dictionary.db.gz"]

/-- C6 witness: the decompression theorem at the concrete one-byte asset
(decompressed to two bytes). -/
theorem decompress_writes_full_witness :
    ((ensure_dictionary_db envC6 fsC6).fst =
      .ok ⟨"20241115", "/data" ++ "/dictionary.db", true,
           successLogs ("/data" ++ "/dictionary.db") tracC6
             (List.length [5]) (List.length [5, 5])⟩ ∧
    (ensure_dictionary_db envC6 fsC6).snd ("/data" ++ "/dictionary.db") =
      FsEntry.readable [5, 5] ∧
    (∀ q, q ≠ "/data" ++ "/dictionary.db" →
      (ensure_dictionary_db envC6 fsC6).snd q = fsC6 q) ∧
    decompressedLine (List.length [5, 5]) ∈
      successLogs ("/data" ++ "/dictionary.db") tracC6
        (List.length [5]) (List.length [5, 5])) :=
  decompress_writes_full_and_reports_count envC6 fsC6 "/data" tracC6 [5]
    [5, 5] rfl rfl rfl rfl rfl

/-- C7: when the gzip stream fails after the destination file was created,
the command returns the decompression error and the partially written
destination file stays on disk (whatever prefix the copy wrote is the
file's content; nothing is deleted or rolled back). -/
theorem half_written_file_remains (env : Env) (fs : Fs) (dir : String)
    (L : List String) (b w : List Nat) (e : String)
    (hA : env.appDataDir = .ok dir)
    (hp : (fs (dir ++ "/dictionary.db")).isPresent = false)
    (hf : findCompressed env fs (searchStartLogs (dir ++ "/dictionary.db")) =
      (L, some b))
    (hc : env.createRes = none)
    (hg : env.gunzip b = (w, some e)) :
    (ensure_dictionary_db env fs).fst =
      .error ("Failed to decompress DB: " ++ e) ∧
    (ensure_dictionary_db env fs).snd (dir ++ "/dictionary.db") =
      FsEntry.readable w ∧
    ((ensure_dictionary_db env fs).snd (dir ++ "/dictionary.db")).isPresent =
      true := by
  rw [ensure_found_eq env fs dir L b hA hp hf,
    materializeFrom_gunzip_fail env fs _ L b w e hc hg]
  refine ⟨rfl, setFile_same _ _ _, ?_⟩
  dsimp only
  rw [setFile_same]
  rfl

/-- Environment for the C7 witness: the copy writes one byte, then the
stream fails. -/
def envC7 : Env :=
  { appDataDir := .ok "/data",
    asset := fun p => if p = "dictionary.db.gz" then some [1, 2] else none,
    exeDir := none, createRes := none,
    gunzip := fun _ => ([7], some "unexpected end of file") }

/-- Empty filesystem for the C7 witness. -/
def fsC7 : Fs := fun _ => FsEntry.absent

/-- Search trace of the C7 witness. -/
def tracC7 : List String :=
  searchStartLogs ("/data" ++ "/dictionary.db") ++
    [tryingAssetLine "dictionary.db.gz", foundAssetLine "dictionary.db.gz"]

/-- C7 witness: the no-rollback theorem at a concrete failing stream. -/
theorem half_written_file_remains_witness :
    ((ensure_dictionary_db envC7 fsC7).fst =
      .error ("Failed to decompress DB: " ++ "unexpected end of file") ∧
    (ensure_dictionary_db envC7 fsC7).snd ("/data" ++ "/dictionary.db") =
      FsEntry.readable [7] ∧
    ((ensure_dictionary_db envC7 fsC7).snd
      ("/data" ++ "/dictionary.db")).isPresent = true) :=
  half_written_file_remains envC7 fsC7 "/data" tracC7 [1, 2] [7]
    "unexpected end of file" rfl rfl rfl rfl rfl

/-- C8: every successful invocation returns the fixed version string
`"20241115"`, whatever the environment, the filesystem, the candidate that
was found and its content. -/
theorem version_constant_on_success (env : Env) (fs : Fs)
    (info : DictionaryInfo) (fs' : Fs)
    (h : ensure_dictionary_db env fs = (.ok info, fs')) :
    info.version = "20241115" := by
  obtain ⟨_, _, _, hver, _, _, _, _⟩ := ensure_ok_inv env fs info fs' h
  exact hver

/-- Environment for the C8 witness (fast path). -/
def envC8 : Env :=
  { appDataDir := .ok "/d8", asset := fun _ => none, exeDir := none,
    createRes := none, gunzip := fun b => (b, none) }

/-- Filesystem with the file present for the C8 witness. -/
def fsC8 : Fs := fun q =>
  if q = "/d8/dictionary.db" then FsEntry.readable [4] else FsEntry.absent

/-- Result of the concrete C8 call. -/
def infoC8 : DictionaryInfo :=
  ⟨"20241115", "/d8" ++ "/dictionary.db", true,
   fastLogs ("/d8" ++ "/dictionary.db")⟩

/-- C8 witness: the version theorem at a concrete successful call. -/
theorem version_constant_on_success_witness : infoC8.version = "20241115" :=
  version_constant_on_success envC8 fsC8 infoC8 fsC8 rfl

set_option maxRecDepth 100000

set_option maxHeartbeats 1000000

/-- C9: the declared migrations are the ordered two-step sequence of the
claim: versions `[1, 2]`, both `Up`; migration 1 creates the `words` table
with the auto-incrementing primary key `id`, `original`, `translation`,
`article` defaulting to the empty string and `created_at` defaulting to the
current timestamp; migration 2 adds the four `INTEGER NOT NULL DEFAULT 0`
columns `score`, `createdAt`, `lastReviewedAt`, `nextReviewAt`. -/
theorem migrations_two_step_schema :
    migrations.map Migration.version = [1, 2] ∧
    migrations.map Migration.kind = [MigrationKind.up, MigrationKind.up] ∧
    migrations.map Migration.description =
      ["create_words_table", "add_spaced_repetition_fields"] ∧
    migrations.map Migration.sql =
      [create_words_table_sql, add_spaced_repetition_fields_sql] ∧
    strContains create_words_table_sql "CREATE TABLE IF NOT EXISTS words" =
      true ∧
    strContains create_words_table_sql
      "id INTEGER PRIMARY KEY AUTOINCREMENT" = true ∧
    strContains create_words_table_sql "original TEXT NOT NULL" = true ∧
    strContains create_words_table_sql "translation TEXT NOT NULL" = true ∧
    strContains create_words_table_sql
      "article TEXT NOT NULL DEFAULT ''" = true ∧
    strContains create_words_table_sql
      "created_at DATETIME DEFAULT CURRENT_TIMESTAMP" = true ∧
    strContains add_spaced_repetition_fields_sql
      "ALTER TABLE words ADD COLUMN score INTEGER NOT NULL DEFAULT 0" =
      true ∧
    strContains add_spaced_repetition_fields_sql
      "ALTER TABLE words ADD COLUMN createdAt INTEGER NOT NULL DEFAULT 0" =
      true ∧
    strContains add_spaced_repetition_fields_sql
      "ALTER TABLE words ADD COLUMN lastReviewedAt INTEGER NOT NULL DEFAULT 0" =
      true ∧
    strContains add_spaced_repetition_fields_sql
      "ALTER TABLE words ADD COLUMN nextReviewAt INTEGER NOT NULL DEFAULT 0" =
      true := by
  refine ⟨rfl, rfl, rfl, rfl, ?_, ?_, ?_, ?_, ?_, ?_, ?_, ?_, ?_, ?_⟩ <;>
    decide

/-- C10: a read failure on one executable-relative candidate does not abort
the search: the error is appended to the trace and the loop moves to the
next candidate; and the filesystem stage reports no source exactly when
every candidate in the list failed to yield bytes. -/
theorem fs_read_failure_continues :
    (∀ (fsm : Fs) p ps logs e, fsm p = FsEntry.unreadable e →
      tryFsPaths fsm (p :: ps) logs =
        tryFsPaths fsm ps (logs ++ [tryingFsLine p, readErrLine e])) ∧
    (∀ (fsm : Fs) ps logs,
      (tryFsPaths fsm ps logs).snd = none ↔
        ∀ p ∈ ps, ∀ b, fsm p ≠ FsEntry.readable b) := by
  constructor
  · intro fsm p ps logs e h
    rw [tryFsPaths, h]
  · intro fsm ps logs
    exact tryFsPaths_snd_none_iff fsm ps logs

/-- Filesystem for the C10 witness: the first candidate exists but cannot
be read, the second is readable. -/
def fsC10 : Fs := fun q =>
  if q = "/b/../public/dictionary.db.gz" then
    FsEntry.unreadable "Permission denied"
  else if q = "/b/../../public/dictionary.db.gz" then FsEntry.readable [8]
  else FsEntry.absent

/-- C10 witness: the continuation equation at the concrete unreadable
candidate, and the exhaustion equivalence on a concrete list. -/
theorem fs_read_failure_continues_witness :
    (tryFsPaths fsC10
      ["/b/../public/dictionary.db.gz", "/b/../../public/dictionary.db.gz"]
      [] =
      tryFsPaths fsC10 ["/b/../../public/dictionary.db.gz"]
        ([] ++ [tryingFsLine "/b/../public/dictionary.db.gz",
                readErrLine "Permission denied"])) ∧
    ((tryFsPaths fsC10 ["/b/../public/dictionary.db.gz"] []).snd = none ↔
      ∀ p ∈ ["/b/../public/dictionary.db.gz"], ∀ b,
        fsC10 p ≠ FsEntry.readable b) :=
  ⟨fs_read_failure_continues.1 fsC10 "/b/../public/dictionary.db.gz"
      ["/b/../../public/dictionary.db.gz"] [] "Permission denied" rfl,
   fs_read_failure_continues.2 fsC10 ["/b/../public/dictionary.db.gz"] []⟩

end Verteilte
